import Mathlib

/-!
# esp32-wifi-smart: `main/wifi-connection.c`

A shallow embedding of the firmware's two pieces of logic:

* the network attachment handlers `wifi_event_handler` / `ip_event_handler`
  with the retry counter `s_retry_num` and the event group bits, and
* the command server loop of `connect_tcp_server` with its `readBuffer`,
  the `strstr` token tests, the GPIO output and the three responses.

C `char` arrays are lists of byte values (`Nat`); a C string is the part of
such a list before its first NUL byte.
-/

namespace WifiSmart

/-! ## Network attachment -/

/-- `#define WIFI_SUCCESS 1 << 0` -/
def WIFI_SUCCESS : Nat := 1 <<< 0

/-- `#define WIFI_FAILURE 1 << 1` -/
def WIFI_FAILURE : Nat := 1 <<< 1

/-- `#define MAX_FAILURES 10` -/
def MAX_FAILURES : Int := 10

/-- The event bases the two handlers compare `event_base` with. -/
inductive EventBase where
  | WIFI_EVENT
  | IP_EVENT
  deriving DecidableEq

/-- `WIFI_EVENT_STA_START` of the ESP-IDF enumeration `wifi_event_t`. -/
def WIFI_EVENT_STA_START : Int := 2

/-- `WIFI_EVENT_STA_DISCONNECTED` of the ESP-IDF enumeration `wifi_event_t`. -/
def WIFI_EVENT_STA_DISCONNECTED : Int := 5

/-- `IP_EVENT_STA_GOT_IP` of the ESP-IDF enumeration `ip_event_t`. -/
def IP_EVENT_STA_GOT_IP : Int := 0

/-- The globals the handlers read and write: `s_retry_num`, the bits of
`wifi_event_group`, `ip_address`, and the number of `esp_wifi_connect()`
requests issued so far. -/
structure WifiState where
  s_retry_num : Int
  bits : Nat
  ip_address : Nat
  connect_requests : Nat
  deriving DecidableEq

/-- `xEventGroupSetBits`: the given bits are or-ed into the group. -/
def xEventGroupSetBits (group bitsToSet : Nat) : Nat := group ||| bitsToSet

/-- The test `bits & FLAG` of `connect_wifi`, as a proposition. -/
def flagSet (bits flag : Nat) : Prop := bits &&& flag ≠ 0

instance (bits flag : Nat) : Decidable (flagSet bits flag) := by
  unfold flagSet; exact inferInstance

/-- `wifi_event_handler` (`s_retry_num++` happens only below `MAX_FAILURES`,
so the C `int` cannot overflow there). -/
def wifi_event_handler (s : WifiState) (event_base : EventBase) (event_id : Int) : WifiState :=
  if event_base = EventBase.WIFI_EVENT ∧ event_id = WIFI_EVENT_STA_START then
    { s with connect_requests := s.connect_requests + 1 }
  else if event_base = EventBase.WIFI_EVENT ∧ event_id = WIFI_EVENT_STA_DISCONNECTED then
    if s.s_retry_num < MAX_FAILURES then
      { s with connect_requests := s.connect_requests + 1, s_retry_num := s.s_retry_num + 1 }
    else
      { s with bits := xEventGroupSetBits s.bits WIFI_FAILURE }
  else s

/-- `ip_event_handler`; `event_ip` is `event->ip_info.ip` of the event data. -/
def ip_event_handler (s : WifiState) (event_base : EventBase) (event_id : Int)
    (event_ip : Nat) : WifiState :=
  if event_base = EventBase.IP_EVENT ∧ event_id = IP_EVENT_STA_GOT_IP then
    { s with ip_address := event_ip, s_retry_num := 0,
             bits := xEventGroupSetBits s.bits WIFI_SUCCESS }
  else s

/-- The three notifications the handlers react to. -/
inductive Notification where
  | staStart
  | staDisconnected
  | gotIp (ip : Nat)
  deriving DecidableEq

/-- The event loop as `connect_wifi` registers it: `wifi_event_handler` for
every id of `WIFI_EVENT`, `ip_event_handler` for `IP_EVENT_STA_GOT_IP`. -/
def handle (s : WifiState) : Notification → WifiState
  | Notification.staStart =>
      wifi_event_handler s EventBase.WIFI_EVENT WIFI_EVENT_STA_START
  | Notification.staDisconnected =>
      wifi_event_handler s EventBase.WIFI_EVENT WIFI_EVENT_STA_DISCONNECTED
  | Notification.gotIp ip =>
      ip_event_handler s EventBase.IP_EVENT IP_EVENT_STA_GOT_IP ip

/-- The state after a sequence of notifications, delivered in order. -/
def run (s : WifiState) (ns : List Notification) : WifiState := ns.foldl handle s

/-- The notifications other than station-start, in order. -/
def withoutStart (ns : List Notification) : List Notification :=
  ns.filter (fun n => n ≠ Notification.staStart)

/-- The state `connect_wifi` starts the driver in: `s_retry_num = 0`, a fresh
event group, and whatever `ip_address` holds. -/
def initial (ip : Nat) : WifiState :=
  { s_retry_num := 0, bits := 0, ip_address := ip, connect_requests := 0 }

/-- The status `connect_wifi` computes from the bits the wait returned. -/
def connect_wifi_status (bits : Nat) : Nat :=
  if bits &&& WIFI_SUCCESS ≠ 0 then WIFI_SUCCESS
  else if bits &&& WIFI_FAILURE ≠ 0 then WIFI_FAILURE
  else WIFI_FAILURE

/-! ## Command server -/

/-- The bytes of a string constant of the source (all of them are ASCII). -/
def bytes (s : String) : List Nat := s.toList.map Char.toNat

/-- The C string held by a `char` array: its bytes before the first NUL. -/
def cstr (buf : List Nat) : List Nat := buf.takeWhile (fun b => b ≠ 0)

/-- `strlen`. -/
def strlen (buf : List Nat) : Nat := (cstr buf).length

/-- The first offset at which `needle` starts in `hay`, if there is one. -/
def search (needle : List Nat) : List Nat → Option Nat
  | [] => if needle.isPrefixOf [] then some 0 else none
  | c :: rest =>
      if needle.isPrefixOf (c :: rest) then some 0
      else (search needle rest).map (fun i => i + 1)

/-- `strstr(haystack, needle)` for a `char` array `haystack` and the text
`needle` of a string literal: `some (some i)` when the C string in `haystack`
holds `needle`, first at offset `i`, and `some none` for the null pointer. An
array without a NUL byte holds no C string; the C function then reads past
the end of the array and its behaviour is undefined, which is `none`. -/
def strstr (haystack needle : List Nat) : Option (Option Nat) :=
  if 0 ∈ haystack then some (search (cstr needle) (cstr haystack)) else none

/-- Whether the C string in `buf` holds `token` as a run of consecutive
bytes, computed by `search`. -/
def found (buf token : List Nat) : Bool := (search token (cstr buf)).isSome

/-- `off_message`. -/
def off_message : List Nat :=
  bytes ("HTTP/1.1 200 OK\r\n" ++
    "Server: esp32\r\n" ++
    "Content-Type: text/html\r\n" ++
    "Content-Length: 51\r\n" ++
    "Connection: close\r\n" ++
    "\r\n" ++
    "<html><body><h1>Turned off the light</h1></body></html>\r\n")

/-- `on_message`. -/
def on_message : List Nat :=
  bytes ("HTTP/1.1 200 OK\r\n" ++
    "Server: esp32\r\n" ++
    "Content-Type: text/html\r\n" ++
    "Content-Length: 50\r\n" ++
    "Connection: close\r\n" ++
    "\r\n" ++
    "<html><body><h1>Turned on the light</h1></body></html>\r\n")

/-- The format string of `generate_html_page`. -/
def html_template : List Nat :=
  bytes ("HTTP/1.1 200 OK\r\n" ++
    "Content-Type: text/html\r\n" ++
    "Connection: close\r\n" ++
    "\r\n" ++
    "<!DOCTYPE html>\r\n" ++
    "<html>\r\n" ++
    "<head>\r\n" ++
    "    <title>Control Page</title>\r\n" ++
    "    <style>\r\n" ++
    "        .button \x7b\r\n" ++
    "            display: inline-block;\r\n" ++
    "            padding: 15px 25px;\r\n" ++
    "            font-size: 24px;\r\n" ++
    "            cursor: pointer;\r\n" ++
    "            text-align: center;\r\n" ++
    "            text-decoration: none;\r\n" ++
    "            outline: none;\r\n" ++
    "            color: #fff;\r\n" ++
    "            background-color: #4CAF50;\r\n" ++
    "            border: none;\r\n" ++
    "            border-radius: 15px;\r\n" ++
    "            box-shadow: 0 9px #999;\r\n" ++
    "        \x7d\r\n" ++
    "        .button:hover \x7bbackground-color: #3e8e41\x7d\r\n" ++
    "        .button:active \x7b\r\n" ++
    "            background-color: #3e8e41;\r\n" ++
    "            box-shadow: 0 5px #666;\r\n" ++
    "            transform: translateY(4px);\r\n" ++
    "        \x7d\r\n" ++
    "    </style>\r\n" ++
    "</head>\r\n" ++
    "<body>\r\n" ++
    "    <a href=\"http://%s/turnmeon\" class=\"button\" target=\"_blank\">Turn On</a>\r\n" ++
    "    <a href=\"http://%s/turnmeoff\" class=\"button\" target=\"_blank\">Turn Off</a>\r\n" ++
    "</body>\r\n" ++
    "</html>\r\n")

/-- Formatting as `snprintf` does it for the one conversion the source uses:
`%s` (bytes 37, 115) is replaced by the next argument, read as a C string;
every other byte is copied. -/
def vformat : List Nat → List (List Nat) → List Nat
  | [], _ => []
  | [c], _ => [c]
  | c :: d :: rest, args =>
      if c = 37 ∧ d = 115 then
        match args with
        | a :: args' => cstr a ++ vformat rest args'
        | [] => vformat rest []
      else c :: vformat (d :: rest) args

/-- `snprintf(buf, size, fmt, ...)`: at most `size - 1` bytes of the formatted
text are stored at the start of `buf`, followed by a NUL; the bytes of `buf`
behind them stay. -/
def snprintf (buf : List Nat) (size : Nat) (fmt : List Nat) (args : List (List Nat)) :
    List Nat :=
  let out := (vformat (cstr fmt) args).take (size - 1)
  out ++ 0 :: buf.drop (out.length + 1)

/-- The globals and locals of `connect_tcp_server` that outlive a connection:
`readBuffer`, `html_page`, `ip_address_str` and the output level of
`GPIO_PIN`. -/
structure ServerState where
  readBuffer : List Nat
  html_page : List Nat
  ip_address_str : List Nat
  gpio_level : Nat
  deriving DecidableEq

/-- `generate_html_page`. -/
def generate_html_page (st : ServerState) (ip_address : List Nat) : ServerState :=
  { st with html_page := snprintf st.html_page 1024 html_template [ip_address, ip_address] }

/-- The format string before its first `%s`. -/
def page_head : List Nat := html_template.take 819

/-- The format string between its two `%s`. -/
def page_middle : List Nat := (html_template.drop 821).take 75

/-- The format string behind its second `%s`. -/
def page_tail : List Nat := html_template.drop 898

/-- What one call of `read(cfd, readBuffer, sizeof(readBuffer))` meets: bytes
sent by the peer (none: the peer has closed), or a transport error. -/
inductive ReadResult where
  | data (sent : List Nat)
  | error
  deriving DecidableEq

/-- `read`: the return value and the buffer afterwards. At most `count` of the
bytes are stored, at the start of the buffer; the bytes behind them stay. -/
def read (buf : List Nat) (count : Nat) : ReadResult → Int × List Nat
  | ReadResult.data sent =>
      let got := sent.take count
      ((got.length : Int), got ++ buf.drop got.length)
  | ReadResult.error => (-1, buf)

/-- The variables of one pass of the `while(1)` body: the server state, the
payloads of the `write` calls on `cfd` so far, and `n`. -/
structure Connection where
  st : ServerState
  writes : List (List Nat)
  n : Int
  deriving DecidableEq

/-- The three tests on `readBuffer` that follow the `read` in the loop body;
`none` when a `strstr` call is undefined. -/
def dispatch (c : Connection) : Option Connection :=
  (strstr c.st.readBuffer (bytes "index.html")).bind fun pIndex =>
    let c1 :=
      if pIndex.isSome then
        { c with writes := c.writes ++ [cstr c.st.html_page], n := 0 }
      else c
    (strstr c1.st.readBuffer (bytes "turnmeon")).bind fun pOn =>
      if pOn.isSome then
        some { c1 with st := { c1.st with gpio_level := 1 },
                       writes := c1.writes ++ [cstr on_message], n := 0 }
      else
        (strstr c1.st.readBuffer (bytes "turnmeoff")).bind fun pOff =>
          if pOff.isSome then
            some { c1 with st := { c1.st with gpio_level := 0 },
                           writes := c1.writes ++ [cstr off_message], n := 0 }
          else some c1

/-- The three tests on a `readBuffer` holding `buf`, in server state `st`: the
state they leave. -/
def dispatch_on (st : ServerState) (buf : List Nat) : Option ServerState :=
  (dispatch { st := { st with readBuffer := buf }, writes := [], n := 1 }).map
    fun c => c.st

/-- A sequence of dispatches, one for each of the buffer contents in turn. -/
def dispatch_all (st : ServerState) : List (List Nat) → Option ServerState
  | [] => some st
  | buf :: more => (dispatch_on st buf).bind fun st' => dispatch_all st' more

/-- One iteration of `while(n > 0)`: the `read`, then the three tests. -/
def loop_body (c : Connection) (r : ReadResult) : Option Connection :=
  let res := read c.st.readBuffer 1024 r
  dispatch { c with st := { c.st with readBuffer := res.2 }, n := res.1 }

/-- The loop `while(n > 0)` over the results the successive `read` calls meet.
When they are used up with `n > 0` the next `read` blocks, and the connection
is returned as it stands. -/
def read_loop (c : Connection) : List ReadResult → Option Connection
  | [] => some c
  | r :: rs =>
      if c.n > 0 then (loop_body c r).bind fun c' => read_loop c' rs
      else some c

/-- The start of one pass of the `while(1)` body, after a successful `accept`:
the page is rendered, nothing is written yet and `n = 1`. `addr` is the text
`ip4addr_ntoa_r` writes into `ip_address_str` for `ip_address`. -/
def accept_client (addr : List Nat) (st : ServerState) : Connection :=
  { st := generate_html_page { st with ip_address_str := addr } addr, writes := [], n := 1 }

/-- One pass of the `while(1)` body: the page is rendered and the read loop
runs. The result is the server state and the payloads written to this client,
at the `close(cfd)` when the loop has ended. -/
def serve_client (addr : List Nat) (st : ServerState) (reads : List ReadResult) :
    Option (ServerState × List (List Nat)) :=
  (read_loop (accept_client addr st) reads).map fun c => (c.st, c.writes)

/-- The `while(1)` loop over successive clients, each given by the results of
its `read` calls; listed are the payloads written to each client. A client
whose results are used up with `n > 0` keeps the server in its `read`, and no
later client is accepted. The calls `socket`, `bind`, `listen` and `accept`
are taken to succeed. -/
def serve (addr : List Nat) (st : ServerState) :
    List (List ReadResult) → Option (ServerState × List (List (List Nat)))
  | [] => some (st, [])
  | reads :: more =>
      (read_loop (accept_client addr st) reads).bind fun c =>
        if c.n > 0 then some (c.st, [c.writes])
        else (serve addr c.st more).map fun rest => (rest.1, c.writes :: rest.2)

/-- The state `connect_tcp_server` enters its loop with: `readBuffer` and
`html_page` zeroed and `ip_address_str` empty, the output at `level`. -/
def server_start (level : Nat) : ServerState :=
  { readBuffer := List.replicate 1024 0, html_page := List.replicate 1024 0,
    ip_address_str := List.replicate 16 0, gpio_level := level }

/-! ### Reading a response as HTTP -/

/-- The bytes that follow the first occurrence of `pat`. -/
def after (pat : List Nat) : List Nat → Option (List Nat)
  | [] => if pat.isPrefixOf [] then some [] else none
  | c :: rest =>
      if pat.isPrefixOf (c :: rest) then some ((c :: rest).drop pat.length)
      else after pat rest

/-- The body of a response: what follows the blank line. -/
def http_body (msg : List Nat) : Option (List Nat) := after (bytes "\r\n\r\n") msg

/-- The number in the `Content-Length` header of a response. -/
def content_length (msg : List Nat) : Option Nat :=
  (after (bytes "Content-Length: ") msg).map fun r =>
    (r.takeWhile (fun b => 48 ≤ b ∧ b ≤ 57)).foldl (fun acc b => 10 * acc + (b - 48)) 0

/-! ### Bit lemmas -/

theorem lor_ne_zero_left (a b : Nat) (h : a ≠ 0) : a ||| b ≠ 0 := by
  intro h0
  apply h
  apply Nat.eq_of_testBit_eq
  intro i
  have := congrArg (fun n => n.testBit i) h0
  simp at this
  simp [this.1]

theorem lor_ne_zero_right (a b : Nat) (h : b ≠ 0) : a ||| b ≠ 0 := by
  rw [Nat.lor_comm]; exact lor_ne_zero_left b a h

/-- Setting a non-zero flag makes its test succeed. -/
theorem flagSet_set_self (b flag : Nat) (h : flag ≠ 0) :
    flagSet (xEventGroupSetBits b flag) flag := by
  unfold flagSet xEventGroupSetBits
  rw [Nat.and_distrib_right, Nat.and_self]
  exact lor_ne_zero_right _ _ h

/-- Setting bits never clears a flag. -/
theorem flagSet_set_mono (b m flag : Nat) (h : flagSet b flag) :
    flagSet (xEventGroupSetBits b m) flag := by
  unfold flagSet xEventGroupSetBits at *
  rw [Nat.and_distrib_right]
  exact lor_ne_zero_left _ _ h

/-- Setting bits disjoint from a flag leaves its test as it was. -/
theorem flagSet_set_other (b m flag : Nat) (h : m &&& flag = 0) :
    flagSet (xEventGroupSetBits b m) flag ↔ flagSet b flag := by
  unfold flagSet xEventGroupSetBits
  rw [Nat.and_distrib_right, h, Nat.or_zero]

/-! ### The handlers, notification by notification -/

theorem handle_staStart (s : WifiState) :
    handle s Notification.staStart =
      { s with connect_requests := s.connect_requests + 1 } := by
  simp [handle, wifi_event_handler]

theorem handle_disconnect_lt (s : WifiState) (h : s.s_retry_num < 10) :
    handle s Notification.staDisconnected =
      { s with connect_requests := s.connect_requests + 1,
               s_retry_num := s.s_retry_num + 1 } := by
  simp [handle, wifi_event_handler, WIFI_EVENT_STA_START, WIFI_EVENT_STA_DISCONNECTED,
    MAX_FAILURES, h]

theorem handle_disconnect_ge (s : WifiState) (h : ¬ s.s_retry_num < 10) :
    handle s Notification.staDisconnected =
      { s with bits := xEventGroupSetBits s.bits WIFI_FAILURE } := by
  simp [handle, wifi_event_handler, WIFI_EVENT_STA_START, WIFI_EVENT_STA_DISCONNECTED,
    MAX_FAILURES, h]

theorem handle_gotIp (s : WifiState) (ip : Nat) :
    handle s (Notification.gotIp ip) =
      { s with ip_address := ip, s_retry_num := 0,
               bits := xEventGroupSetBits s.bits WIFI_SUCCESS } := by
  simp [handle, ip_event_handler]

theorem run_nil (s : WifiState) : run s [] = s := rfl

theorem run_cons (s : WifiState) (n : Notification) (ns : List Notification) :
    run s (n :: ns) = run (handle s n) ns := rfl

/-- No notification clears a flag. -/
theorem handle_flag_mono (s : WifiState) (n : Notification) (flag : Nat)
    (h : flagSet s.bits flag) : flagSet (handle s n).bits flag := by
  cases n with
  | staStart => rw [handle_staStart]; exact h
  | staDisconnected =>
      by_cases hlt : s.s_retry_num < 10
      · rw [handle_disconnect_lt s hlt]; exact h
      · rw [handle_disconnect_ge s hlt]; exact flagSet_set_mono _ _ _ h
  | gotIp ip => rw [handle_gotIp]; exact flagSet_set_mono _ _ _ h

/-- No sequence of notifications clears a flag. -/
theorem run_flag_mono (ns : List Notification) :
    ∀ (s : WifiState) (flag : Nat), flagSet s.bits flag → flagSet (run s ns).bits flag := by
  induction ns with
  | nil => intro s flag h; exact h
  | cons n t ih =>
      intro s flag h
      rw [run_cons]
      exact ih _ _ (handle_flag_mono s n flag h)

/-- The retry counter stays within `0 .. 10` under every notification. -/
theorem handle_retry_bounds (s : WifiState) (n : Notification)
    (h : 0 ≤ s.s_retry_num ∧ s.s_retry_num ≤ 10) :
    0 ≤ (handle s n).s_retry_num ∧ (handle s n).s_retry_num ≤ 10 := by
  cases n with
  | staStart => rw [handle_staStart]; exact h
  | staDisconnected =>
      by_cases hlt : s.s_retry_num < 10
      · rw [handle_disconnect_lt s hlt]; simp only; omega
      · rw [handle_disconnect_ge s hlt]; exact h
  | gotIp ip => rw [handle_gotIp]; simp

theorem run_retry_bounds (ns : List Notification) :
    ∀ s : WifiState, 0 ≤ s.s_retry_num ∧ s.s_retry_num ≤ 10 →
      0 ≤ (run s ns).s_retry_num ∧ (run s ns).s_retry_num ≤ 10 := by
  induction ns with
  | nil => intro s h; exact h
  | cons n t ih =>
      intro s h
      rw [run_cons]
      exact ih _ (handle_retry_bounds s n h)

/-! ### When the failure flag is set -/

theorem replicate_prefix_of_le {k m : Nat} (h : k ≤ m) (a : Notification)
    (l : List Notification) (hp : List.replicate m a <+: l) : List.replicate k a <+: l := by
  have hm : List.replicate m a = List.replicate k a ++ List.replicate (m - k) a := by
    rw [← List.replicate_add]; congr 1; omega
  rw [hm] at hp
  exact (List.prefix_append _ _).trans hp

/-- From a state with counter `r ≤ 10` and the failure flag clear, the flag is
set by `ns` exactly when `ns` starts with `11 - r` disconnects or holds 11
disconnects in a row (station-starts aside). -/
theorem failure_iff_aux (ns : List Notification) :
    ∀ (s : WifiState) (r : Nat), s.s_retry_num = (r : Int) → r ≤ 10 →
      ¬ flagSet s.bits WIFI_FAILURE →
      (flagSet (run s ns).bits WIFI_FAILURE ↔
        (List.replicate (11 - r) Notification.staDisconnected <+: withoutStart ns
          ∨ List.replicate 11 Notification.staDisconnected <:+: withoutStart ns)) := by
  induction ns with
  | nil =>
      intro s r hr hle hf
      have h11 : 11 - r ≠ 0 := by omega
      simp [run_nil, hf, withoutStart, h11]
  | cons n t ih =>
      intro s r hr hle hf
      rw [run_cons]
      cases n with
      | staStart =>
          have h := ih (handle s Notification.staStart) r
            (by rw [handle_staStart]; exact hr) hle (by rw [handle_staStart]; exact hf)
          simpa [withoutStart] using h
      | staDisconnected =>
          have hw : withoutStart (Notification.staDisconnected :: t)
              = Notification.staDisconnected :: withoutStart t := by
            simp [withoutStart]
          rw [hw, List.infix_cons_iff]
          by_cases hlt : r < 10
          · have hlt' : s.s_retry_num < 10 := by omega
            have h := ih (handle s Notification.staDisconnected) (r + 1)
              (by rw [handle_disconnect_lt s hlt']; simp [hr]) (by omega)
              (by rw [handle_disconnect_lt s hlt']; exact hf)
            rw [h]
            have hA : (List.replicate (11 - r) Notification.staDisconnected <+:
                  Notification.staDisconnected :: withoutStart t)
                ↔ List.replicate (11 - (r + 1)) Notification.staDisconnected <+:
                  withoutStart t := by
              have e1 : 11 - r = (11 - (r + 1)) + 1 := by omega
              rw [e1, List.replicate_succ, List.prefix_cons_inj]
            have hB : (List.replicate 11 Notification.staDisconnected <+:
                  Notification.staDisconnected :: withoutStart t)
                ↔ List.replicate 10 Notification.staDisconnected <+: withoutStart t := by
              have e2 : List.replicate 11 Notification.staDisconnected
                  = Notification.staDisconnected
                    :: List.replicate 10 Notification.staDisconnected := rfl
              rw [e2, List.prefix_cons_inj]
            rw [hA, hB]
            constructor
            · rintro (h1 | h2)
              · exact Or.inl h1
              · exact Or.inr (Or.inr h2)
            · rintro (h1 | h2 | h3)
              · exact Or.inl h1
              · exact Or.inl (replicate_prefix_of_le (by omega) _ _ h2)
              · exact Or.inr h3
          · have hr10 : r = 10 := by omega
            have hge : ¬ s.s_retry_num < 10 := by omega
            have hset : flagSet (handle s Notification.staDisconnected).bits WIFI_FAILURE := by
              rw [handle_disconnect_ge s hge]
              exact flagSet_set_self _ _ (by decide)
            subst hr10
            constructor
            · intro _
              left
              simp [List.replicate_succ]
            · intro _
              exact run_flag_mono t _ _ hset
      | gotIp ip =>
          have hw : withoutStart (Notification.gotIp ip :: t)
              = Notification.gotIp ip :: withoutStart t := by
            simp [withoutStart]
          have h := ih (handle s (Notification.gotIp ip)) 0
            (by rw [handle_gotIp]; rfl) (by omega)
            (by
              rw [handle_gotIp]
              exact fun hc => hf ((flagSet_set_other _ _ _ (by decide)).mp hc))
          rw [h, hw, List.infix_cons_iff]
          have e1 : List.replicate (11 - r) Notification.staDisconnected
              = Notification.staDisconnected
                :: List.replicate (10 - r) Notification.staDisconnected := by
            have e : 11 - r = (10 - r) + 1 := by omega
            rw [e, List.replicate_succ]
          have e2 : List.replicate 11 Notification.staDisconnected
              = Notification.staDisconnected
                :: List.replicate 10 Notification.staDisconnected := rfl
          constructor
          · rintro (h1 | h2)
            · exact Or.inr (Or.inr h1.isInfix)
            · exact Or.inr (Or.inr h2)
          · rintro (h1 | h2 | h3)
            · rw [e1, List.cons_prefix_cons] at h1
              exact absurd h1.1 (by simp)
            · rw [e2, List.cons_prefix_cons] at h2
              exact absurd h2.1 (by simp)
            · exact Or.inr h3

/-! ### Claims on the network attachment -/

/-- C1, as amended: from the state `connect_wifi` starts in (counter 0, no flag
set), a sequence of notifications sets `WIFI_FAILURE` if and only if it holds
at least 11 disconnects with no address-acquisition between them, that is 11
disconnects in a row once the station-starts, which neither handler counts,
are left out (a sequence of disconnects and address-acquisitions has none). -/
theorem failure_iff_eleven_disconnects (ip : Nat) (ns : List Notification) :
    flagSet (run (initial ip) ns).bits WIFI_FAILURE ↔
      ∃ before after, withoutStart ns
        = before ++ List.replicate 11 Notification.staDisconnected ++ after := by
  have h := failure_iff_aux ns (initial ip) 0 rfl (by omega) (by simp [initial, flagSet])
  rw [h]
  constructor
  · rintro (h1 | h2)
    · obtain ⟨a, b, hab⟩ := h1.isInfix
      exact ⟨a, b, hab.symm⟩
    · obtain ⟨a, b, hab⟩ := h2
      exact ⟨a, b, hab.symm⟩
  · rintro ⟨a, b, hab⟩
    exact Or.inr ⟨a, b, hab.symm⟩

/-- C1, as stated, fails: ten disconnects in a row, with no address-acquisition
between them, leave `WIFI_FAILURE` clear and the counter at 10. -/
theorem ten_disconnects_no_failure :
    (∃ before after, List.replicate 10 Notification.staDisconnected
        = before ++ List.replicate 10 Notification.staDisconnected ++ after)
    ∧ ¬ flagSet (run (initial 0) (List.replicate 10 Notification.staDisconnected)).bits
          WIFI_FAILURE
    ∧ (run (initial 0) (List.replicate 10 Notification.staDisconnected)).s_retry_num = 10 :=
  ⟨⟨[], [], by simp⟩, by decide, by decide⟩

/-- C6: whatever the retry counter and the flags are, `ip_event_handler` on
`IP_EVENT_STA_GOT_IP` stores the address of the event in `ip_address`, sets
`s_retry_num` to 0 and sets the `WIFI_SUCCESS` flag. -/
theorem got_ip_records_resets_signals (s : WifiState) (ip : Nat) :
    (ip_event_handler s EventBase.IP_EVENT IP_EVENT_STA_GOT_IP ip).ip_address = ip
    ∧ (ip_event_handler s EventBase.IP_EVENT IP_EVENT_STA_GOT_IP ip).s_retry_num = 0
    ∧ flagSet (ip_event_handler s EventBase.IP_EVENT IP_EVENT_STA_GOT_IP ip).bits
        WIFI_SUCCESS := by
  refine ⟨by simp [ip_event_handler], by simp [ip_event_handler], ?_⟩
  have h : (ip_event_handler s EventBase.IP_EVENT IP_EVENT_STA_GOT_IP ip).bits
      = xEventGroupSetBits s.bits WIFI_SUCCESS := by simp [ip_event_handler]
  rw [h]
  exact flagSet_set_self _ _ (by decide)

/-- C7: in every state reached from retry counter 0 (whatever the flags, the
address and the requests issued) by station-start, disconnect and
address-acquisition notifications, `0 ≤ s_retry_num ≤ MAX_FAILURES = 10`; and
in every state a disconnect adds exactly one to a counter below 10 and leaves
any other counter as it is. -/
theorem retry_counter_bounded (bits ip reqs : Nat) (ns : List Notification)
    (s : WifiState) :
    0 ≤ (run { s_retry_num := 0, bits := bits, ip_address := ip,
               connect_requests := reqs } ns).s_retry_num
    ∧ (run { s_retry_num := 0, bits := bits, ip_address := ip,
             connect_requests := reqs } ns).s_retry_num ≤ MAX_FAILURES
    ∧ MAX_FAILURES = 10
    ∧ (handle s Notification.staDisconnected).s_retry_num
        = if s.s_retry_num < 10 then s.s_retry_num + 1 else s.s_retry_num := by
  have h := run_retry_bounds ns ⟨0, bits, ip, reqs⟩ (by simp)
  refine ⟨h.1, h.2, rfl, ?_⟩
  by_cases hlt : s.s_retry_num < 10
  · rw [handle_disconnect_lt s hlt, if_pos hlt]
  · rw [handle_disconnect_ge s hlt, if_neg hlt]

/-- C10, as amended: the handlers never clear a flag and set at most one flag
per notification. In every state reached from the initial state, a flag that
is set stays set under all later notifications, and a notification handled
while no flag is set leaves at most one of `WIFI_SUCCESS`, `WIFI_FAILURE` set;
`connect_wifi` reports `WIFI_SUCCESS` exactly when that flag is among the bits
it reads, testing it first. -/
theorem flags_sticky_first_outcome_single (ip : Nat) (ns later : List Notification)
    (n : Notification) (waited : Nat) :
    (flagSet (run (initial ip) ns).bits WIFI_SUCCESS →
        flagSet (run (run (initial ip) ns) later).bits WIFI_SUCCESS)
    ∧ (flagSet (run (initial ip) ns).bits WIFI_FAILURE →
        flagSet (run (run (initial ip) ns) later).bits WIFI_FAILURE)
    ∧ (¬ flagSet (run (initial ip) ns).bits WIFI_SUCCESS →
        ¬ flagSet (run (initial ip) ns).bits WIFI_FAILURE →
        ¬ (flagSet (handle (run (initial ip) ns) n).bits WIFI_SUCCESS
            ∧ flagSet (handle (run (initial ip) ns) n).bits WIFI_FAILURE))
    ∧ (connect_wifi_status waited = WIFI_SUCCESS ↔ flagSet waited WIFI_SUCCESS) := by
  refine ⟨run_flag_mono later _ _, run_flag_mono later _ _, ?_, ?_⟩
  · intro hs hf
    generalize run (initial ip) ns = s at hs hf
    cases n with
    | staStart => rw [handle_staStart]; exact fun h => hs h.1
    | staDisconnected =>
        by_cases hlt : s.s_retry_num < 10
        · rw [handle_disconnect_lt s hlt]; exact fun h => hs h.1
        · rw [handle_disconnect_ge s hlt]
          exact fun h => hs ((flagSet_set_other _ _ _ (by decide)).mp h.1)
    | gotIp a =>
        rw [handle_gotIp]
        exact fun h => hf ((flagSet_set_other _ _ _ (by decide)).mp h.2)
  · unfold connect_wifi_status flagSet
    by_cases h : waited &&& WIFI_SUCCESS ≠ 0
    · simp [h]
    · have h12 : WIFI_FAILURE ≠ WIFI_SUCCESS := by decide
      by_cases h2 : waited &&& WIFI_FAILURE ≠ 0 <;> simp [h, h2, h12]

/-- C10, as stated, fails: after 11 disconnects `WIFI_FAILURE` is set and
`WIFI_SUCCESS` is not; an address-acquisition delivered next sets
`WIFI_SUCCESS` as well, and both flags are set. -/
theorem both_flags_after_late_address :
    flagSet (run (initial 0) (List.replicate 11 Notification.staDisconnected)).bits
      WIFI_FAILURE
    ∧ ¬ flagSet (run (initial 0) (List.replicate 11 Notification.staDisconnected)).bits
      WIFI_SUCCESS
    ∧ flagSet (run (initial 0) (List.replicate 11 Notification.staDisconnected
        ++ [Notification.gotIp 7])).bits WIFI_SUCCESS
    ∧ flagSet (run (initial 0) (List.replicate 11 Notification.staDisconnected
        ++ [Notification.gotIp 7])).bits WIFI_FAILURE := by
  decide

/-- The third part of `flags_sticky_first_outcome_single` at a state with no
flag set: ten disconnects, then an eleventh. -/
theorem flags_sticky_first_outcome_single_witness :
    ¬ (flagSet (handle (run (initial 0) (List.replicate 10 Notification.staDisconnected))
          Notification.staDisconnected).bits WIFI_SUCCESS
        ∧ flagSet (handle (run (initial 0) (List.replicate 10 Notification.staDisconnected))
          Notification.staDisconnected).bits WIFI_FAILURE) :=
  (flags_sticky_first_outcome_single 0 (List.replicate 10 Notification.staDisconnected) []
    Notification.staDisconnected 0).2.2.1 (by decide) (by decide)

/-! ### C strings and `strstr` -/

theorem search_isSome_iff (needle : List Nat) :
    ∀ hay : List Nat, (search needle hay).isSome ↔ needle <:+: hay := by
  intro hay
  induction hay with
  | nil =>
      by_cases h : needle.isPrefixOf [] = true
      · have hp := List.isPrefixOf_iff_prefix.mp h
        simp [search, h, hp.isInfix]
      · have hn : ¬ needle <:+: [] := by
          intro hi
          apply h
          rw [List.isPrefixOf_iff_prefix]
          rw [List.infix_nil] at hi
          rw [hi]
        simp only [search, h]
        simpa using hn
  | cons c rest ih =>
      rw [List.infix_cons_iff]
      by_cases h : needle.isPrefixOf (c :: rest) = true
      · have hp := List.isPrefixOf_iff_prefix.mp h
        simp [search, h, hp]
      · have hn : ¬ needle <+: c :: rest := fun hp => h (List.isPrefixOf_iff_prefix.mpr hp)
        simp only [search, h]
        simp [hn, ih]

/-- On an array with a NUL byte `strstr` is defined, and it returns a pointer
exactly when the C string in the array holds the C string `token` as a run of
consecutive bytes. -/
theorem strstr_terminated (buf token : List Nat) (h : 0 ∈ buf) :
    strstr buf token = some (search (cstr token) (cstr buf))
    ∧ ((search (cstr token) (cstr buf)).isSome ↔ cstr token <:+: cstr buf) :=
  ⟨by simp [strstr, h], search_isSome_iff _ _⟩

theorem found_iff (buf token : List Nat) : found buf token = true ↔ token <:+: cstr buf :=
  search_isSome_iff _ _

theorem found_eq_false (buf token : List Nat) (h : ¬ token <:+: cstr buf) :
    found buf token = false := by
  rw [Bool.eq_false_iff, ne_eq, found_iff]; exact h

theorem cstr_index : cstr (bytes "index.html") = bytes "index.html" := by decide

theorem cstr_turnmeon : cstr (bytes "turnmeon") = bytes "turnmeon" := by decide

theorem cstr_turnmeoff : cstr (bytes "turnmeoff") = bytes "turnmeoff" := by decide

set_option maxRecDepth 100000 in
theorem cstr_on_message : cstr on_message = on_message := by decide

set_option maxRecDepth 100000 in
theorem cstr_off_message : cstr off_message = off_message := by decide

/-- The C string of `a ++ b` starts with the C string of `a`. -/
theorem cstr_prefix_append (a b : List Nat) : cstr a <+: cstr (a ++ b) := by
  induction a with
  | nil => simp [cstr]
  | cons x t ih =>
      by_cases hx : x = 0
      · simp [cstr, hx]
      · simpa [cstr, hx, List.prefix_cons_inj] using ih

/-! ### The tests of the loop body -/

/-- On a buffer with a NUL byte the three tests are defined, and this is what
they leave. -/
theorem dispatch_eq (c : Connection) (h : 0 ∈ c.st.readBuffer) :
    dispatch c = some
      { st := { c.st with
                gpio_level :=
                  if found c.st.readBuffer (bytes "turnmeon") then 1
                  else if found c.st.readBuffer (bytes "turnmeoff") then 0
                  else c.st.gpio_level },
        writes := c.writes
          ++ ((if found c.st.readBuffer (bytes "index.html") then [cstr c.st.html_page]
               else [])
            ++ (if found c.st.readBuffer (bytes "turnmeon") then [on_message]
                else if found c.st.readBuffer (bytes "turnmeoff") then [off_message]
                else [])),
        n := if found c.st.readBuffer (bytes "index.html")
                || found c.st.readBuffer (bytes "turnmeon")
                || found c.st.readBuffer (bytes "turnmeoff") then 0 else c.n } := by
  unfold found
  cases h1 : (search (bytes "index.html") (cstr c.st.readBuffer)).isSome <;>
  cases h2 : (search (bytes "turnmeon") (cstr c.st.readBuffer)).isSome <;>
  cases h3 : (search (bytes "turnmeoff") (cstr c.st.readBuffer)).isSome <;>
  simp [dispatch, strstr, h, cstr_index, cstr_turnmeon, cstr_turnmeoff, cstr_on_message,
    cstr_off_message, h1, h2, h3]

/-- `turnmeon` found, `index.html` not: the output is set to 1 and
`on_message` is the one payload written. -/
theorem dispatch_turnmeon (c : Connection) (hnul : 0 ∈ c.st.readBuffer)
    (hon : bytes "turnmeon" <:+: cstr c.st.readBuffer)
    (hidx : ¬ bytes "index.html" <:+: cstr c.st.readBuffer) :
    dispatch c = some { st := { c.st with gpio_level := 1 },
                        writes := c.writes ++ [on_message], n := 0 } := by
  rw [dispatch_eq c hnul]
  simp [(found_iff _ _).mpr hon, found_eq_false _ _ hidx]

/-- `turnmeoff` found, `turnmeon` and `index.html` not: the output is set to 0
and `off_message` is the one payload written. -/
theorem dispatch_turnmeoff (c : Connection) (hnul : 0 ∈ c.st.readBuffer)
    (hoff : bytes "turnmeoff" <:+: cstr c.st.readBuffer)
    (hon : ¬ bytes "turnmeon" <:+: cstr c.st.readBuffer)
    (hidx : ¬ bytes "index.html" <:+: cstr c.st.readBuffer) :
    dispatch c = some { st := { c.st with gpio_level := 0 },
                        writes := c.writes ++ [off_message], n := 0 } := by
  rw [dispatch_eq c hnul]
  simp [(found_iff _ _).mpr hoff, found_eq_false _ _ hon, found_eq_false _ _ hidx]

/-- What the three tests do for each token they find, on a buffer with a NUL
byte. -/
theorem dispatch_found (c : Connection) (hnul : 0 ∈ c.st.readBuffer) :
    ∃ c' new, dispatch c = some c'
      ∧ c'.writes = c.writes ++ new
      ∧ (found c.st.readBuffer (bytes "index.html") = true →
          c'.n = 0 ∧ ∃ more, new = cstr c.st.html_page :: more)
      ∧ (found c.st.readBuffer (bytes "turnmeon") = true →
          c'.n = 0 ∧ c'.st.gpio_level = 1 ∧ ∃ before, new = before ++ [on_message])
      ∧ (found c.st.readBuffer (bytes "turnmeoff") = true →
          c'.n = 0
          ∧ ((c'.st.gpio_level = 0 ∧ ∃ before, new = before ++ [off_message])
              ∨ (c'.st.gpio_level = 1 ∧ ∃ before, new = before ++ [on_message]))
          ∧ (found c.st.readBuffer (bytes "turnmeon") = false →
              c'.st.gpio_level = 0 ∧ ∃ before, new = before ++ [off_message])) := by
  refine ⟨_, _, dispatch_eq c hnul, rfl, ?_, ?_, ?_⟩
  · intro h
    simp [h]
  · intro h
    simp [h]
  · intro h
    cases hO : found c.st.readBuffer (bytes "turnmeon") <;> simp [h, hO]

theorem loop_body_data (c : Connection) (sent : List Nat) :
    loop_body c (ReadResult.data sent)
      = dispatch { c with
          st := { c.st with
            readBuffer := sent.take 1024 ++ c.st.readBuffer.drop (sent.take 1024).length },
          n := ((sent.take 1024).length : Int) } := rfl

theorem read_data_buffer (buf sent : List Nat) :
    (read buf 1024 (ReadResult.data sent)).2
      = sent.take 1024 ++ buf.drop (sent.take 1024).length := rfl

/-- On a buffer with a NUL byte the dispatch is defined and leaves the buffer,
the page and the address as they are. -/
theorem dispatch_on_terminated (st : ServerState) (buf : List Nat) (h : 0 ∈ buf) :
    ∃ st', dispatch_on st buf = some st' := by
  unfold dispatch_on
  rw [dispatch_eq _ h]
  exact ⟨_, rfl⟩

/-- A sequence of dispatches on buffers that all hold a NUL byte is defined. -/
theorem dispatch_all_terminated (bufs : List (List Nat)) :
    ∀ st : ServerState, (∀ buf ∈ bufs, 0 ∈ buf) → ∃ st', dispatch_all st bufs = some st' := by
  induction bufs with
  | nil => intro st _; exact ⟨st, rfl⟩
  | cons buf more ih =>
      intro st h
      obtain ⟨st1, h1⟩ := dispatch_on_terminated st buf (h buf (List.mem_cons_self _ _))
      obtain ⟨st2, h2⟩ := ih st1 (fun b hb => h b (List.mem_cons_of_mem _ hb))
      exact ⟨st2, by simp [dispatch_all, h1, h2]⟩

/-- The last dispatch of a sequence acts on the state the earlier ones leave. -/
theorem dispatch_all_append (earlier : List (List Nat)) (buf : List Nat) :
    ∀ st : ServerState, dispatch_all st (earlier ++ [buf])
      = (dispatch_all st earlier).bind fun st' => dispatch_on st' buf := by
  induction earlier with
  | nil => intro st; simp [dispatch_all]
  | cons b more ih =>
      intro st
      cases h : dispatch_on st b with
      | none => simp [dispatch_all, h]
      | some st1 => simp [dispatch_all, h, ih st1]

set_option maxRecDepth 100000 in
theorem on_message_body :
    http_body on_message
      = some (bytes "<html><body><h1>Turned on the light</h1></body></html>\r\n") := by
  decide

set_option maxRecDepth 100000 in
theorem off_message_body :
    http_body off_message
      = some (bytes "<html><body><h1>Turned off the light</h1></body></html>\r\n") := by
  decide

/-! ### Rendering the page -/

theorem vformat_cons_ne (c : Nat) (l : List Nat) (args : List (List Nat)) (h : c ≠ 37) :
    vformat (c :: l) args = c :: vformat l args := by
  cases l <;> simp [vformat, h]

/-- Bytes other than `%` are copied. -/
theorem vformat_literal (lit rest : List Nat) (args : List (List Nat))
    (h : ∀ c ∈ lit, c ≠ 37) : vformat (lit ++ rest) args = lit ++ vformat rest args := by
  induction lit with
  | nil => rfl
  | cons c t ih =>
      have hc : c ≠ 37 := h c (List.mem_cons_self _ _)
      have ht : ∀ d ∈ t, d ≠ 37 := fun d hd => h d (List.mem_cons_of_mem _ hd)
      rw [List.cons_append, vformat_cons_ne _ _ _ hc, ih ht, List.cons_append]

theorem vformat_string (rest a : List Nat) (args : List (List Nat)) :
    vformat (37 :: 115 :: rest) (a :: args) = cstr a ++ vformat rest args := by
  simp [vformat]

set_option maxRecDepth 100000 in
theorem html_template_parts :
    html_template = page_head ++ 37 :: 115 :: (page_middle ++ 37 :: 115 :: page_tail) := by
  decide

theorem all_ne_of_all (l : List Nat) (k : Nat) (h : l.all (fun c => c != k) = true) :
    ∀ c ∈ l, c ≠ k := by
  intro c hc
  have := List.all_eq_true.mp h c hc
  simpa using this

set_option maxRecDepth 100000 in
theorem page_parts_literal :
    (∀ c ∈ page_head, c ≠ 37) ∧ (∀ c ∈ page_middle, c ≠ 37) ∧ (∀ c ∈ page_tail, c ≠ 37) :=
  ⟨all_ne_of_all _ _ (by decide), all_ne_of_all _ _ (by decide),
    all_ne_of_all _ _ (by decide)⟩

set_option maxRecDepth 100000 in
theorem page_parts_no_nul :
    (∀ c ∈ page_head, c ≠ 0) ∧ (∀ c ∈ page_middle, c ≠ 0) ∧ (∀ c ∈ page_tail, c ≠ 0) :=
  ⟨all_ne_of_all _ _ (by decide), all_ne_of_all _ _ (by decide),
    all_ne_of_all _ _ (by decide)⟩

set_option maxRecDepth 100000 in
theorem page_parts_length :
    page_head.length = 819 ∧ page_middle.length = 75 ∧ page_tail.length = 75 := by
  decide

set_option maxRecDepth 100000 in
theorem cstr_html_template : cstr html_template = html_template := by decide

set_option maxRecDepth 100000 in
theorem page_parts_links :
    page_head = page_head.take 812 ++ bytes "http://"
    ∧ page_middle = bytes "/turnmeon" ++ (page_middle.drop 9).take 59 ++ bytes "http://"
    ∧ page_tail = bytes "/turnmeoff" ++ (page_tail.drop 10).take 56 ++ bytes "</html>\r\n" := by
  decide

/-- The formatted text: the three parts of the format string with the address
between them. -/
theorem vformat_html_template (addr : List Nat) :
    vformat html_template [addr, addr]
      = page_head ++ (cstr addr ++ (page_middle ++ (cstr addr ++ page_tail))) := by
  have hl := page_parts_literal
  rw [html_template_parts, vformat_literal _ _ _ hl.1, vformat_string,
    vformat_literal _ _ _ hl.2.1, vformat_string]
  have ht : vformat page_tail [] = page_tail := by
    have h := vformat_literal page_tail [] [] hl.2.2
    rw [List.append_nil] at h
    rw [h]
    simp [vformat]
  rw [ht]

theorem cstr_no_nul (a : List Nat) : ∀ c ∈ cstr a, c ≠ 0 := by
  intro c hc
  have h := List.mem_takeWhile_imp hc
  simpa using h

/-- A text without NUL bytes that is followed by a NUL is the C string of the
buffer. -/
theorem cstr_append_nul (out rest : List Nat) (h : ∀ c ∈ out, c ≠ 0) :
    cstr (out ++ 0 :: rest) = out := by
  induction out with
  | nil => simp [cstr]
  | cons x t ih =>
      have hx : x ≠ 0 := h x (List.mem_cons_self _ _)
      have ht : ∀ d ∈ t, d ≠ 0 := fun d hd => h d (List.mem_cons_of_mem _ hd)
      have := ih ht
      unfold cstr at this ⊢
      rw [List.cons_append, List.takeWhile_cons_of_pos (by simpa using hx), this]

/-- The C string `generate_html_page` leaves in `html_page`, for an address of
at most 15 bytes: the whole formatted text. -/
theorem cstr_generate_html_page (st : ServerState) (addr : List Nat)
    (h : strlen addr ≤ 15) :
    cstr (generate_html_page st addr).html_page
      = page_head ++ (cstr addr ++ (page_middle ++ (cstr addr ++ page_tail))) := by
  have hlen := page_parts_length
  have hnul := page_parts_no_nul
  have hfull : (page_head ++ (cstr addr ++ (page_middle ++ (cstr addr ++ page_tail)))).length
      ≤ 1024 - 1 := by
    simp only [List.length_append, hlen.1, hlen.2.1, hlen.2.2]
    unfold strlen at h
    omega
  have hno : ∀ c ∈ page_head ++ (cstr addr ++ (page_middle ++ (cstr addr ++ page_tail))),
      c ≠ 0 := by
    intro c hc
    simp only [List.mem_append] at hc
    rcases hc with hc | hc | hc | hc | hc
    · exact hnul.1 c hc
    · exact cstr_no_nul addr c hc
    · exact hnul.2.1 c hc
    · exact cstr_no_nul addr c hc
    · exact hnul.2.2 c hc
  simp only [generate_html_page, snprintf]
  rw [cstr_html_template, vformat_html_template, List.take_of_length_le hfull]
  exact cstr_append_nul _ _ hno

/-! ### Claims on the command server -/

set_option maxRecDepth 100000 in
/-- C2, evaluated on the code: the `Content-Length` header of `on_message`
says 50 and its body, the bytes behind the blank line, has 56 bytes; the
header of `off_message` says 51 and its body has 57 bytes. -/
theorem content_length_differs_from_body :
    content_length on_message = some 50
    ∧ http_body on_message
        = some (bytes "<html><body><h1>Turned on the light</h1></body></html>\r\n")
    ∧ (bytes "<html><body><h1>Turned on the light</h1></body></html>\r\n").length = 56
    ∧ content_length off_message = some 51
    ∧ http_body off_message
        = some (bytes "<html><body><h1>Turned off the light</h1></body></html>\r\n")
    ∧ (bytes "<html><body><h1>Turned off the light</h1></body></html>\r\n").length = 57 := by
  decide

set_option maxRecDepth 100000 in
/-- C3, evaluated on the code: the first client of a server with output level
0 sends one request that holds both `index.html` and `turnmeon`. The one
iteration writes two payloads, the page and then `on_message`, and leaves the
output at level 1. -/
theorem index_and_turnmeon_both_dispatched :
    bytes "index.html"
      <:+: bytes "GET /turnmeon HTTP/1.1\r\nReferer: http://192.168.4.1/index.html\r\n\r\n"
    ∧ bytes "turnmeon"
      <:+: bytes "GET /turnmeon HTTP/1.1\r\nReferer: http://192.168.4.1/index.html\r\n\r\n"
    ∧ (serve_client (bytes "192.168.4.1") (server_start 0)
        [ReadResult.data
          (bytes "GET /turnmeon HTTP/1.1\r\nReferer: http://192.168.4.1/index.html\r\n\r\n")]).map
          (fun r => r.2)
      = some [cstr (generate_html_page (server_start 0) (bytes "192.168.4.1")).html_page,
              on_message]
    ∧ (serve_client (bytes "192.168.4.1") (server_start 0)
        [ReadResult.data
          (bytes "GET /turnmeon HTTP/1.1\r\nReferer: http://192.168.4.1/index.html\r\n\r\n")]).map
          (fun r => r.1.gpio_level)
      = some 1 := by
  decide

set_option maxRecDepth 100000 in
/-- C4, evaluated on the code: a first client sends `GET /turnmeon`; for the
second client the first `read` returns 0 (peer closed) or -1 (error). The
tests run on the bytes the first client left in `readBuffer`, and
`on_message` is written to the second client too. -/
theorem stale_buffer_answers_empty_read :
    (serve (bytes "192.168.4.1") (server_start 0)
        [[ReadResult.data (bytes "GET /turnmeon HTTP/1.1\r\n\r\n")],
         [ReadResult.data []]]).map (fun r => r.2)
      = some [[on_message], [on_message]]
    ∧ (serve (bytes "192.168.4.1") (server_start 0)
        [[ReadResult.data (bytes "GET /turnmeon HTTP/1.1\r\n\r\n")],
         [ReadResult.error]]).map (fun r => r.2)
      = some [[on_message], [on_message]]
    ∧ (read (server_start 0).readBuffer 1024 (ReadResult.data [])).1 = 0
    ∧ (read (server_start 0).readBuffer 1024 ReadResult.error).1 = -1 := by
  decide

/-- C5, as amended: for every `readBuffer` that holds a NUL byte, when the C
string in it (the bytes before the first NUL, which is what `strstr`
searches) holds `turnmeon` and not `index.html`, the tests set the output
level to 1, write `on_message` and nothing else, and end the loop; when it
holds `turnmeoff` and neither `turnmeon` nor `index.html`, they set the level
to 0 and write `off_message` and nothing else. The bodies of the two messages
are the two fixed texts. After any sequence of dispatches on such buffers the
level is the one of the last of them. -/
theorem action_tokens_dispatch (c : Connection) (st : ServerState)
    (earlier : List (List Nat)) (onBuf offBuf : List Nat)
    (hearlier : ∀ buf ∈ earlier, 0 ∈ buf)
    (hon_nul : 0 ∈ onBuf)
    (hon : bytes "turnmeon" <:+: cstr onBuf)
    (hon_idx : ¬ bytes "index.html" <:+: cstr onBuf)
    (hoff_nul : 0 ∈ offBuf)
    (hoff : bytes "turnmeoff" <:+: cstr offBuf)
    (hoff_on : ¬ bytes "turnmeon" <:+: cstr offBuf)
    (hoff_idx : ¬ bytes "index.html" <:+: cstr offBuf) :
    dispatch { c with st := { c.st with readBuffer := onBuf } }
      = some { st := { c.st with readBuffer := onBuf, gpio_level := 1 },
               writes := c.writes ++ [on_message], n := 0 }
    ∧ http_body on_message
        = some (bytes "<html><body><h1>Turned on the light</h1></body></html>\r\n")
    ∧ dispatch { c with st := { c.st with readBuffer := offBuf } }
      = some { st := { c.st with readBuffer := offBuf, gpio_level := 0 },
               writes := c.writes ++ [off_message], n := 0 }
    ∧ http_body off_message
        = some (bytes "<html><body><h1>Turned off the light</h1></body></html>\r\n")
    ∧ (∃ st', dispatch_all st (earlier ++ [onBuf]) = some st' ∧ st'.gpio_level = 1)
    ∧ (∃ st', dispatch_all st (earlier ++ [offBuf]) = some st' ∧ st'.gpio_level = 0) := by
  obtain ⟨st1, h1⟩ := dispatch_all_terminated earlier st hearlier
  refine ⟨?_, on_message_body, ?_, off_message_body, ?_, ?_⟩
  · rw [dispatch_turnmeon _ hon_nul hon hon_idx]
  · rw [dispatch_turnmeoff _ hoff_nul hoff hoff_on hoff_idx]
  · have hd := dispatch_turnmeon
      { st := { st1 with readBuffer := onBuf }, writes := [], n := 1 } hon_nul hon hon_idx
    rw [dispatch_all_append, h1]
    show ∃ st', dispatch_on st1 onBuf = some st' ∧ st'.gpio_level = 1
    unfold dispatch_on
    rw [hd]
    exact ⟨_, rfl, rfl⟩
  · have hd := dispatch_turnmeoff
      { st := { st1 with readBuffer := offBuf }, writes := [], n := 1 }
      hoff_nul hoff hoff_on hoff_idx
    rw [dispatch_all_append, h1]
    show ∃ st', dispatch_on st1 offBuf = some st' ∧ st'.gpio_level = 0
    unfold dispatch_on
    rw [hd]
    exact ⟨_, rfl, rfl⟩

/-- The witness of `action_tokens_dispatch`: a `GET /turnmeon` request after a
`GET /turnmeoff` request and the reverse, each followed by a NUL byte, on a
freshly accepted client. -/
theorem action_tokens_dispatch_witness :
    (bytes "turnmeon" <:+: cstr (bytes "GET /turnmeon HTTP/1.1\r\n\r\n\x00")
      ∧ ¬ bytes "index.html" <:+: cstr (bytes "GET /turnmeon HTTP/1.1\r\n\r\n\x00")
      ∧ bytes "turnmeoff" <:+: cstr (bytes "GET /turnmeoff HTTP/1.1\r\n\r\n\x00")
      ∧ ¬ bytes "turnmeon" <:+: cstr (bytes "GET /turnmeoff HTTP/1.1\r\n\r\n\x00")
      ∧ ¬ bytes "index.html" <:+: cstr (bytes "GET /turnmeoff HTTP/1.1\r\n\r\n\x00"))
    ∧ (dispatch { accept_client (bytes "192.168.4.1") (server_start 0) with
          st := { (accept_client (bytes "192.168.4.1") (server_start 0)).st with
                  readBuffer := bytes "GET /turnmeon HTTP/1.1\r\n\r\n\x00" } }).map
          (fun c => (c.writes, c.st.gpio_level, c.n))
        = some ([] ++ [on_message], 1, 0)
    ∧ (∃ st', dispatch_all (server_start 0)
          ([bytes "GET /turnmeoff HTTP/1.1\r\n\r\n\x00"]
            ++ [bytes "GET /turnmeon HTTP/1.1\r\n\r\n\x00"]) = some st'
        ∧ st'.gpio_level = 1)
    ∧ (∃ st', dispatch_all (server_start 0)
          ([bytes "GET /turnmeoff HTTP/1.1\r\n\r\n\x00"]
            ++ [bytes "GET /turnmeoff HTTP/1.1\r\n\r\n\x00"]) = some st'
        ∧ st'.gpio_level = 0) :=
  have h := action_tokens_dispatch (accept_client (bytes "192.168.4.1") (server_start 0))
    (server_start 0) [bytes "GET /turnmeoff HTTP/1.1\r\n\r\n\x00"]
    (bytes "GET /turnmeon HTTP/1.1\r\n\r\n\x00") (bytes "GET /turnmeoff HTTP/1.1\r\n\r\n\x00")
    (by decide) (by decide) (by decide) (by decide) (by decide) (by decide) (by decide)
    (by decide)
  ⟨⟨by decide, by decide, by decide, by decide, by decide⟩,
    by rw [h.1]; rfl, h.2.2.2.2.1, h.2.2.2.2.2⟩

set_option maxRecDepth 100000 in
/-- C5, as stated, fails: the first client of a server with output level 0
sends `GET /`, a NUL byte and `turnmeon HTTP/1.1`. The bytes read hold
`turnmeon` and not `index.html`, yet `strstr` stops at the NUL byte: nothing
is written, the level stays 0 and `n` is 27, so the loop goes on reading. -/
theorem nul_before_turnmeon_not_dispatched :
    bytes "turnmeon" <:+: bytes "GET /\x00turnmeon HTTP/1.1\r\n\r\n"
    ∧ ¬ bytes "index.html" <:+: bytes "GET /\x00turnmeon HTTP/1.1\r\n\r\n"
    ∧ (loop_body (accept_client (bytes "192.168.4.1") (server_start 0))
        (ReadResult.data (bytes "GET /\x00turnmeon HTTP/1.1\r\n\r\n"))).map
          (fun c => (c.writes, c.st.gpio_level, c.n, c.st.readBuffer))
      = some ([], 0, 27,
          bytes "GET /\x00turnmeon HTTP/1.1\r\n\r\n" ++ List.replicate 997 0) := by
  decide

/-- C8, as amended: the tests search the bytes of the latest `read`, not the
bytes accumulated over the connection. For every state of the connection and
every `read` that leaves a NUL byte in `readBuffer`, a token that the bytes
of that `read` hold before any NUL byte is recognised and dispatched when
that `read` is processed. For `index.html` the page is the first payload
written; for `turnmeon` the output is set to 1 and `on_message` is the last
payload written; for `turnmeoff` the output is set to 0 and `off_message` is
the last payload written, unless the `turnmeon` test, which comes first,
succeeds and its command is dispatched instead. In each case `n` is 0, which
ends the loop. -/
theorem token_within_read_dispatched (c : Connection) (sent : List Nat)
    (hnul : 0 ∈ (read c.st.readBuffer 1024 (ReadResult.data sent)).2) :
    ∃ c' new, loop_body c (ReadResult.data sent) = some c'
      ∧ c'.writes = c.writes ++ new
      ∧ (bytes "index.html" <:+: cstr (sent.take 1024) →
          c'.n = 0 ∧ ∃ more, new = cstr c.st.html_page :: more)
      ∧ (bytes "turnmeon" <:+: cstr (sent.take 1024) →
          c'.n = 0 ∧ c'.st.gpio_level = 1 ∧ ∃ before, new = before ++ [on_message])
      ∧ (bytes "turnmeoff" <:+: cstr (sent.take 1024) →
          c'.n = 0
          ∧ ((c'.st.gpio_level = 0 ∧ ∃ before, new = before ++ [off_message])
              ∨ (c'.st.gpio_level = 1 ∧ ∃ before, new = before ++ [on_message]))
          ∧ (¬ bytes "turnmeon"
                <:+: cstr (read c.st.readBuffer 1024 (ReadResult.data sent)).2 →
              c'.st.gpio_level = 0 ∧ ∃ before, new = before ++ [off_message])) := by
  rw [read_data_buffer] at hnul ⊢
  have hpre : ∀ token : List Nat, token <:+: cstr (sent.take 1024) →
      found (sent.take 1024 ++ c.st.readBuffer.drop (sent.take 1024).length) token
        = true :=
    fun token h => (found_iff _ _).mpr (h.trans (cstr_prefix_append _ _).isInfix)
  obtain ⟨c', new, h1, h2, h3, h4, h5⟩ := dispatch_found
    { c with
      st := { c.st with
        readBuffer := sent.take 1024 ++ c.st.readBuffer.drop (sent.take 1024).length },
      n := ((sent.take 1024).length : Int) } hnul
  refine ⟨c', new, by rw [loop_body_data]; exact h1, h2, fun h => h3 (hpre _ h),
    fun h => h4 (hpre _ h), fun h => ?_⟩
  have h := h5 (hpre _ h)
  exact ⟨h.1, h.2.1, fun hn => h.2.2 (found_eq_false _ _ hn)⟩

set_option maxRecDepth 100000 in
/-- The witness of `token_within_read_dispatched`: a whole request in one
`read` on a freshly accepted client of a server with output level 1, for
`/turnmeoff`, for `/turnmeon` and for `/index.html`. -/
theorem token_within_read_dispatched_witness :
    (∃ c' new, loop_body (accept_client (bytes "192.168.4.1") (server_start 1))
          (ReadResult.data (bytes "GET /turnmeoff HTTP/1.1\r\n\r\n")) = some c'
        ∧ c'.writes = (accept_client (bytes "192.168.4.1") (server_start 1)).writes ++ new
        ∧ c'.n = 0 ∧ c'.st.gpio_level = 0 ∧ ∃ before, new = before ++ [off_message])
    ∧ (∃ c' new, loop_body (accept_client (bytes "192.168.4.1") (server_start 1))
          (ReadResult.data (bytes "GET /turnmeon HTTP/1.1\r\n\r\n")) = some c'
        ∧ c'.writes = (accept_client (bytes "192.168.4.1") (server_start 1)).writes ++ new
        ∧ c'.n = 0 ∧ c'.st.gpio_level = 1 ∧ ∃ before, new = before ++ [on_message])
    ∧ (∃ c' new, loop_body (accept_client (bytes "192.168.4.1") (server_start 1))
          (ReadResult.data (bytes "GET /index.html HTTP/1.1\r\n\r\n")) = some c'
        ∧ c'.writes = (accept_client (bytes "192.168.4.1") (server_start 1)).writes ++ new
        ∧ c'.n = 0
        ∧ ∃ more, new
            = cstr (accept_client (bytes "192.168.4.1") (server_start 1)).st.html_page
              :: more) := by
  refine ⟨?_, ?_, ?_⟩
  · obtain ⟨c', new, h1, h2, _, _, h5⟩ :=
      token_within_read_dispatched (accept_client (bytes "192.168.4.1") (server_start 1))
        (bytes "GET /turnmeoff HTTP/1.1\r\n\r\n") (by decide)
    have h := h5 (by decide)
    exact ⟨c', new, h1, h2, h.1, h.2.2 (by decide)⟩
  · obtain ⟨c', new, h1, h2, _, h4, _⟩ :=
      token_within_read_dispatched (accept_client (bytes "192.168.4.1") (server_start 1))
        (bytes "GET /turnmeon HTTP/1.1\r\n\r\n") (by decide)
    exact ⟨c', new, h1, h2, h4 (by decide)⟩
  · obtain ⟨c', new, h1, h2, h3, _, _⟩ :=
      token_within_read_dispatched (accept_client (bytes "192.168.4.1") (server_start 1))
        (bytes "GET /index.html HTTP/1.1\r\n\r\n") (by decide)
    exact ⟨c', new, h1, h2, h3 (by decide)⟩

set_option maxRecDepth 100000 in
/-- C8, as stated, fails: on the first client of a server two successive reads
deliver `GET /turn` and `meon HTTP/1.1`. Their concatenation holds `turnmeon`,
yet after the second read nothing is written, the output level is as before
and `n` is 17, so the loop goes on reading; `turnmeon` is not in the buffer. -/
theorem split_token_not_recognized :
    bytes "turnmeon" <:+: bytes "GET /turn" ++ bytes "meon HTTP/1.1\r\n\r\n"
    ∧ (read_loop (accept_client (bytes "192.168.4.1") (server_start 0))
        [ReadResult.data (bytes "GET /turn"),
         ReadResult.data (bytes "meon HTTP/1.1\r\n\r\n")]).map
          (fun c => (c.writes, c.n, c.st.gpio_level, cstr c.st.readBuffer))
      = some ([], 17, 0, bytes "meon HTTP/1.1\r\n\r\n") := by
  decide

/-- C9: for every address string of at most 15 bytes, `generate_html_page`
leaves the whole formatted template in `html_page`, nothing cut off: the text
is the same whatever the state before the call, its length is
`969 + 2 * strlen addr`, at most 999 and below 1024, it holds the two links
`http://<addr>/turnmeon` and `http://<addr>/turnmeoff`, and it ends with
`</html>` and a line end. -/
theorem generate_html_page_whole (st st' : ServerState) (addr : List Nat)
    (h : strlen addr ≤ 15) :
    cstr (generate_html_page st addr).html_page = vformat html_template [addr, addr]
    ∧ cstr (generate_html_page st addr).html_page
        = cstr (generate_html_page st' addr).html_page
    ∧ strlen (generate_html_page st addr).html_page = 969 + 2 * strlen addr
    ∧ strlen (generate_html_page st addr).html_page ≤ 999
    ∧ strlen (generate_html_page st addr).html_page < 1024
    ∧ bytes "http://" ++ cstr addr ++ bytes "/turnmeon"
        <:+: cstr (generate_html_page st addr).html_page
    ∧ bytes "http://" ++ cstr addr ++ bytes "/turnmeoff"
        <:+: cstr (generate_html_page st addr).html_page
    ∧ bytes "</html>\r\n" <:+ cstr (generate_html_page st addr).html_page := by
  have hpage := cstr_generate_html_page st addr h
  have hpage' := cstr_generate_html_page st' addr h
  have hlen := page_parts_length
  have hlinks := page_parts_links
  have hl : strlen (generate_html_page st addr).html_page = 969 + 2 * strlen addr := by
    unfold strlen
    rw [hpage]
    simp only [List.length_append, hlen.1, hlen.2.1, hlen.2.2]
    omega
  refine ⟨?_, ?_, hl, ?_, ?_, ?_, ?_, ?_⟩
  · rw [hpage, vformat_html_template]
  · rw [hpage, hpage']
  · rw [hl]; omega
  · rw [hl]; omega
  · rw [hpage]
    refine ⟨page_head.take 812,
      (page_middle.drop 9).take 59 ++ bytes "http://" ++ (cstr addr ++ page_tail), ?_⟩
    conv_rhs => rw [hlinks.1, hlinks.2.1]
    simp only [List.append_assoc]
  · rw [hpage]
    refine ⟨page_head ++ (cstr addr ++ (bytes "/turnmeon" ++ (page_middle.drop 9).take 59)),
      (page_tail.drop 10).take 56 ++ bytes "</html>\r\n", ?_⟩
    conv_rhs => rw [hlinks.2.1, hlinks.2.2]
    simp only [List.append_assoc]
  · rw [hpage]
    refine ⟨page_head ++ (cstr addr ++ (page_middle ++ (cstr addr
      ++ (bytes "/turnmeoff" ++ (page_tail.drop 10).take 56)))), ?_⟩
    conv_rhs => rw [hlinks.2.2]
    simp only [List.append_assoc]

set_option maxRecDepth 100000 in
/-- The witness of `generate_html_page_whole`: the address `192.168.4.1`, on
the zeroed `html_page` of a fresh server and on one that holds an older page. -/
theorem generate_html_page_whole_witness :
    strlen (bytes "192.168.4.1") ≤ 15
    ∧ cstr (generate_html_page (server_start 0) (bytes "192.168.4.1")).html_page
        = cstr (generate_html_page
            (generate_html_page (server_start 1) (bytes "255.255.255.255"))
            (bytes "192.168.4.1")).html_page
    ∧ strlen (generate_html_page (server_start 0) (bytes "192.168.4.1")).html_page
        = 969 + 2 * strlen (bytes "192.168.4.1") :=
  have h := generate_html_page_whole (server_start 0)
    (generate_html_page (server_start 1) (bytes "255.255.255.255"))
    (bytes "192.168.4.1") (by decide)
  ⟨by decide, h.2.1, h.2.2.1⟩

end WifiSmart
